import Mathlib

/-!
Shallow embedding of the two command-line utilities of this repository:
`scripts/convert_to_hex.py` (recolor the dark pixels of a drawing) and
`scripts/m4a_to_wav_conversion.py` (batch-transcode a directory tree of
`.m4a` files to `.wav` via FFmpeg).

Modelling conventions:
* machine integers are `Int`/`Nat`;
* Python exceptions are `Except`/`Option` values; the environment a run
  interacts with (filesystem checks, image decoding, subprocess outcomes)
  is passed in explicitly as a structure of results;
* filesystem paths are normalized lists of components (`"a/b/c"` is
  `["a", "b", "c"]`, the relative path `"."` is `[]`, and an absolute path
  carries a leading `""` component so it renders with a leading slash);
* the semantics of the Python builtins the scripts call (`int(s, 16)`,
  `str.lower`, `str.endswith`, `os.path.splitext`, slicing, `lstrip`) are
  modelled on ASCII strings.
-/

/-- An RGBA pixel as read from an image opened in RGBA mode
(`Image.open(input_path).convert('RGBA')`, `convert_to_hex.py` line 14).
Channels of a pixel coming from a decoded image lie in `[0, 255]`. -/
structure Pixel where
  r : Int
  g : Int
  b : Int
  a : Int
deriving DecidableEq

/-- The RGB triple obtained by parsing the hexadecimal color string
(`convert_to_hex.py` line 18). -/
structure ColorSpec where
  r : Int
  g : Int
  b : Int
deriving DecidableEq

/-- A raster image: its dimensions and its pixels in row-major order. -/
structure Image where
  width : Nat
  height : Nat
  pixels : List Pixel
deriving DecidableEq

/-- Per-pixel recoloring step (`convert_to_hex.py` lines 28-33): a pixel
whose three color channels are all strictly below 230 is rewritten to the
new color, keeping its alpha; any other pixel is copied unchanged. -/
def recolorPixel (c : ColorSpec) (p : Pixel) : Pixel :=
  if p.r < 230 ∧ p.g < 230 ∧ p.b < 230 then ⟨c.r, c.g, c.b, p.a⟩ else p

/-- The pixel loop of `convert_to_color` (`convert_to_hex.py` lines 21-33):
a fresh image of the same size in which every pixel position of the input
has been processed by `recolorPixel`. -/
def recolorImage (c : ColorSpec) (img : Image) : Image :=
  ⟨img.width, img.height, img.pixels.map (recolorPixel c)⟩

/-- Value of one hexadecimal digit character (ASCII), as accepted by
Python's `int(s, 16)`. -/
def hexVal (c : Char) : Option Nat :=
  if 48 ≤ c.toNat ∧ c.toNat ≤ 57 then some (c.toNat - 48)
  else if 97 ≤ c.toNat ∧ c.toNat ≤ 102 then some (c.toNat - 87)
  else if 65 ≤ c.toNat ∧ c.toNat ≤ 70 then some (c.toNat - 55)
  else none

/-- ASCII whitespace, stripped by Python's `int` before parsing. -/
def pyIsSpace (c : Char) : Bool :=
  c == ' ' || c == '\t' || c == '\n' || c == '\x0b' || c == '\x0c' || c == '\r'

/-- Strip leading and trailing whitespace, as Python's `int` does. -/
def stripEnds (l : List Char) : List Char :=
  ((l.dropWhile pyIsSpace).reverse.dropWhile pyIsSpace).reverse

/-- Head test for a character list. -/
def headIs (l : List Char) (c : Char) : Bool :=
  match l with
  | [] => false
  | d :: _ => d == c

/-- Tail of Python's base-16 digit syntax: after a first digit, every
further digit may be preceded by a single underscore. -/
def hexRest (acc : Nat) : List Char → Option Nat
  | [] => some acc
  | c :: cs =>
    if c == '_' then
      match cs with
      | [] => none
      | d :: ds =>
        match hexVal d with
        | some v => hexRest (16 * acc + v) ds
        | none => none
    else
      match hexVal c with
      | some v => hexRest (16 * acc + v) cs
      | none => none

/-- Digit part of Python's `int(s, 16)`: nonempty, starting with a hex
digit, underscores only between digits. -/
def hexCore : List Char → Option Nat
  | [] => none
  | c :: cs =>
    match hexVal c with
    | some v => hexRest v cs
    | none => none

/-- Model of Python's `int(s, 16)` on an ASCII character list: surrounding
whitespace is stripped, an optional sign and an optional `0x`/`0X` prefix
(itself optionally followed by one underscore) are accepted, then a
nonempty run of hex digits with single underscores between digits; `none`
models `ValueError`. -/
def pyIntBase16 (l : List Char) : Option Int :=
  let t := stripEnds l
  let sign : Int := if headIs t '-' then -1 else 1
  let t1 := if headIs t '-' || headIs t '+' then t.tail else t
  let t2 :=
    if headIs t1 '0' && (headIs t1.tail 'x' || headIs t1.tail 'X') then
      if headIs t1.tail.tail '_' then t1.tail.tail.tail else t1.tail.tail
    else t1
  match hexCore t2 with
  | some v => some (sign * (v : Int))
  | none => none

/-- Python slice `s[i:j]` for `0 ≤ i ≤ j`, on a character list. -/
def pySlice (cs : List Char) (i j : Nat) : List Char :=
  (cs.drop i).take (j - i)

/-- The hex color parsing of `convert_to_color` (`convert_to_hex.py` lines
17-18): `color_hex.lstrip('#')` followed by `int(color_hex[i:i+2], 16)` for
`i = 0, 2, 4`; `none` when any of the three `int` calls raises
`ValueError`. -/
def parseColorHex (colorHex : String) : Option ColorSpec :=
  let cs := colorHex.data.dropWhile (fun c => c == '#')
  match pyIntBase16 (pySlice cs 0 2), pyIntBase16 (pySlice cs 2 4),
      pyIntBase16 (pySlice cs 4 6) with
  | some r, some g, some b => some ⟨r, g, b⟩
  | _, _, _ => none

/-- Environment of one `convert_to_color` run: the outcome of the two
operations that touch the filesystem and can raise — opening/decoding the
input image, and saving the output image. -/
structure ImgEnv where
  openImage : Except String Image
  save : Except String Unit

/-- Body of the `try` block of `convert_to_color` (`convert_to_hex.py`
lines 13-37): open the image, parse the color, recolor, save, and report
success; any step may fail with a Python exception, modelled as
`Except.error`. Returns the lines printed on success. -/
def convertBody (env : ImgEnv) (colorHex outputPath : String) :
    Except String (List String) := do
  let img ← env.openImage
  let c ←
    match parseColorHex colorHex with
    | some c => Except.ok c
    | none => Except.error ("invalid literal for int() with base 16: " ++ colorHex)
  let _ := recolorImage c img
  let _ ← env.save
  Except.ok ["Image successfully saved to " ++ outputPath]

/-- Outcome of a top-level run: either normal termination with the printed
lines, or an exception escaping the function. -/
inductive TopOutcome where
  | normal (printed : List String)
  | uncaught (exc : String)
deriving DecidableEq

/-- `convert_to_color` (`convert_to_hex.py` lines 4-40): the whole body
runs inside `try`; the `except Exception` handler (lines 39-40) turns any
error into a printed message. -/
def convert_to_color (env : ImgEnv) (colorHex outputPath : String) : TopOutcome :=
  match convertBody env colorHex outputPath with
  | Except.ok lines => TopOutcome.normal lines
  | Except.error e => TopOutcome.normal ["An error occurred: " ++ e]

/-- A filesystem path as a normalized list of components. -/
abbrev FsPath := List String

/-- Render a path the way `os.path.join` builds it on POSIX. -/
def pathToString (p : FsPath) : String :=
  String.intercalate "/" p

/-- Python's `str.lower` (ASCII). -/
def pyLower (s : String) : String :=
  ⟨s.data.map Char.toLower⟩

/-- Python's `str.endswith`. -/
def pyEndsWith (s pat : String) : Bool :=
  decide (pat.data <:+ s.data)

/-- The extension filter of `m4a_to_wav_conversion.py` line 60:
`filename.lower().endswith(".m4a")`. -/
def matchesM4a (filename : String) : Bool :=
  pyEndsWith (pyLower filename) ".m4a"

/-- Base part of `os.path.splitext` applied to a bare filename: cut at the
last dot, except that a name whose characters before that dot are all dots
keeps its extension (so `".m4a"` has base `".m4a"`). -/
def splitextBaseChars (cs : List Char) : List Char :=
  match ((List.range cs.length).filter (fun i => cs.getD i ' ' == '.')).getLast? with
  | none => cs
  | some i => if (cs.take i).all (fun c => c == '.') then cs else cs.take i

/-- Base of `os.path.splitext(filename)` (`m4a_to_wav_conversion.py`
line 70). -/
def pySplitextBase (filename : String) : String :=
  ⟨splitextBaseChars filename.data⟩

/-- One unit of batch work: the directory of the file relative to the
input root (the `os.path.relpath(root, input_dir)` of line 62, `[]` for
`"."`) and the filename. -/
structure WorkItem where
  rel : FsPath
  name : String
deriving DecidableEq

/-- Source path of a work item: `os.path.join(root, filename)` (line 61). -/
def srcPath (inputDir : FsPath) (it : WorkItem) : FsPath :=
  inputDir ++ it.rel ++ [it.name]

/-- Output filename: `base_filename + ".wav"` (lines 70-73). -/
def destName (filename : String) : String :=
  pySplitextBase filename ++ ".wav"

/-- Destination path of a work item (lines 62-73): the output root joined
with the relative directory and the rewritten filename. -/
def destPath (outputDir : FsPath) (it : WorkItem) : FsPath :=
  outputDir ++ it.rel ++ [destName it.name]

/-- The enumeration of lines 58-60: for each directory of the `os.walk`
listing (given with its path relative to the input root), the files whose
lowercased name ends in `.m4a`, in listing order. -/
def enumerateItems (listing : List (FsPath × List String)) : List WorkItem :=
  listing.flatMap (fun e => (e.2.filter matchesM4a).map (fun f => ⟨e.1, f⟩))

/-- Number of files in the walked tree that match the extension filter. -/
def matchCount (listing : List (FsPath × List String)) : Nat :=
  (listing.map (fun e => (e.2.filter matchesM4a).length)).sum

/-- The FFmpeg command of lines 78-89. -/
def buildCommand (ffmpegPath : String) (inputDir outputDir : FsPath)
    (it : WorkItem) : List String :=
  [ffmpegPath, "-i", pathToString (srcPath inputDir it), "-acodec",
   "pcm_s16le", "-y", pathToString (destPath outputDir it)]

/-- Result of one `subprocess.run` invocation: either the process ran and
returned an exit code with captured stdout/stderr (`check=True` raises
`CalledProcessError` exactly when the code is nonzero), or some other
exception was raised while invoking it. -/
inductive ItemOutcome where
  | ret (code : Nat) (stdout stderr : String)
  | raised (msg : String)
deriving DecidableEq

/-- Environment of one `convert_m4a_directory_to_wav` run: the filesystem
checks of lines 37-44, the `os.walk` listing of the input tree (directory
paths relative to the input root), and the outcome of the transcoder
invocation for each source path. -/
structure AudioEnv where
  isdir : Bool
  listing : List (FsPath × List String)
  which : Bool
  pexists : Bool
  isfile : Bool
  outcome : FsPath → ItemOutcome

/-- The transcoder resolves (lines 39-40): `shutil.which` finds it, or it
is an existing regular file at the given path. -/
def ffmpegResolvable (env : AudioEnv) : Prop :=
  env.which = true ∨ (env.pexists = true ∧ env.isfile = true)

/-- Whether the invocation for this item succeeds (lines 91-100):
`subprocess.run` returned exit code 0. -/
def itemSucceeds (env : AudioEnv) (inputDir : FsPath) (it : WorkItem) : Bool :=
  match env.outcome (srcPath inputDir it) with
  | ItemOutcome.ret 0 _ _ => true
  | _ => false

/-- The invocation for this item completed with an exit code rather than
raising some other exception. -/
def invocationCompleted (env : AudioEnv) (inputDir : FsPath) (it : WorkItem) : Bool :=
  match env.outcome (srcPath inputDir it) with
  | ItemOutcome.ret _ _ _ => true
  | ItemOutcome.raised _ => false

/-- The invocation for this item completed with a nonzero exit code. -/
def exitsNonzero (env : AudioEnv) (inputDir : FsPath) (it : WorkItem) : Bool :=
  match env.outcome (srcPath inputDir it) with
  | ItemOutcome.ret (_ + 1) _ _ => true
  | _ => false

/-- The conversion loop of lines 58-111: for each work item in order, run
the transcoder command and count the item as converted (exit code 0) or
failed (`CalledProcessError` of a nonzero exit, or any other exception);
a failure never stops the loop. Returns the invoked commands in order,
the converted count, and the failed count. -/
def runLoop (env : AudioEnv) (ffmpegPath : String) (inputDir outputDir : FsPath) :
    List WorkItem → List (List String) × Nat × Nat
  | [] => ([], 0, 0)
  | it :: rest =>
    let res := runLoop env ffmpegPath inputDir outputDir rest
    (buildCommand ffmpegPath inputDir outputDir it :: res.1,
     if itemSucceeds env inputDir it then res.2.1 + 1 else res.2.1,
     if itemSucceeds env inputDir it then res.2.2 else res.2.2 + 1)

/-- Model of `os.path.abspath` for the paths of this development: resolve
the path against the absolute working directory. -/
def pyAbspath (cwd p : FsPath) : FsPath :=
  cwd ++ p

/-- The four summary prints of lines 113-116 (the first print carries a
leading newline before the header). -/
def summaryLines (converted failed : Nat) (outputAbs : String) : List String :=
  ["\n--- Conversion Summary ---",
   "Successfully converted: " ++ toString converted ++ " file(s)",
   "Failed conversions:     " ++ toString failed ++ " file(s)",
   "Output directory:       " ++ outputAbs]

/-- Outcome of a whole run: an uncaught `FileNotFoundError` raised by the
precondition checks, or normal completion with the invoked commands, the
two counters and the printed summary. -/
inductive RunOutcome where
  | fatal (exc : String)
  | done (invocations : List (List String)) (converted failed : Nat)
      (printed : List String)
deriving DecidableEq

/-- The transcoder invocations a run performed: none when it aborted in
the precondition checks, since the raises of lines 37-44 happen before
the walk loop starts. -/
def invocationsOf : RunOutcome → List (List String)
  | RunOutcome.fatal _ => []
  | RunOutcome.done invs _ _ _ => invs

/-- `convert_m4a_directory_to_wav` (`m4a_to_wav_conversion.py` lines
8-116): validate the input directory and the FFmpeg executable (lines
37-44), default the output directory to the input directory (lines 46-47),
run the conversion loop over the enumerated work items (lines 58-111), and
print the summary (lines 113-116). Progress prints and output-directory
creation, which no claim concerns, are not modelled. -/
def convert_m4a_directory_to_wav (env : AudioEnv) (inputDir : FsPath)
    (outputDirOpt : Option FsPath) (ffmpegPath : String) (cwd : FsPath) : RunOutcome :=
  if env.isdir = false then
    RunOutcome.fatal ("Input directory not found: " ++ pathToString inputDir)
  else if env.which = false ∧ (env.pexists = false ∨ env.isfile = false) then
    RunOutcome.fatal ("FFmpeg executable not found at " ++ ffmpegPath)
  else
    let outputDir := outputDirOpt.getD inputDir
    let res := runLoop env ffmpegPath inputDir outputDir (enumerateItems env.listing)
    RunOutcome.done res.1 res.2.1 res.2.2
      (summaryLines res.2.1 res.2.2 (pathToString (pyAbspath cwd outputDir)))

/-- The printed lines contain the decimal rendering of `n` somewhere. -/
def printsNum (lines : List String) (n : Nat) : Prop :=
  ∃ l ∈ lines, (toString n).data <:+: l.data

/-- Concrete run environment with three matching files of which one
invocation exits 0 and two exit 1. -/
def c2Env : AudioEnv :=
  AudioEnv.mk true [([], ["a.m4a", "b.m4a", "c.m4a"])] true true true
    (fun p => if p = ["in", "a.m4a"] then ItemOutcome.ret 0 "" ""
      else ItemOutcome.ret 1 "" "conversion failed")

/-- Concrete run environment whose input directory does not exist. -/
def c3Env : AudioEnv :=
  AudioEnv.mk false [([], ["a.m4a"])] true true true
    (fun _ => ItemOutcome.ret 0 "" "")

/-- Concrete run environment with two matching files in a two-level tree,
all invocations succeeding. -/
def c5Env : AudioEnv :=
  AudioEnv.mk true [([], ["a.m4a"]), (["sub"], ["b.m4a"])] true true true
    (fun _ => ItemOutcome.ret 0 "" "")

/-- Concrete run environment with three matching files, one succeeding
invocation and two failing ones (attempted = 3). -/
def c7Env : AudioEnv :=
  AudioEnv.mk true [([], ["a.m4a", "b.m4a", "c.m4a"])] true true true
    (fun p => if p = ["in", "a.m4a"] then ItemOutcome.ret 0 "" ""
      else ItemOutcome.ret 1 "" "conversion failed")

/-- Concrete run environment with one matching file whose invocation
succeeds. -/
def c7bEnv : AudioEnv :=
  AudioEnv.mk true [([], ["a.m4a"])] true true true
    (fun _ => ItemOutcome.ret 0 "" "")

/-- Claim C1: for every input image and every `ColorSpec`, recoloring
produces an output of the same dimensions in which every pixel whose three
color channels are all strictly below 230 has its RGB replaced by the
color with its original alpha preserved, and every other pixel is
unchanged; on the 2×2 example image with color `#FF0000` the result is the
stated pixel list. -/
theorem c1_recolor_spec :
    (∀ (c : ColorSpec) (img : Image),
      (recolorImage c img).width = img.width ∧
      (recolorImage c img).height = img.height ∧
      (recolorImage c img).pixels.length = img.pixels.length ∧
      ∀ i : Nat, (recolorImage c img).pixels[i]? =
        (img.pixels[i]?).map (fun p =>
          if p.r < 230 ∧ p.g < 230 ∧ p.b < 230 then
            Pixel.mk c.r c.g c.b p.a
          else p)) ∧
    recolorImage (ColorSpec.mk 255 0 0)
      (Image.mk 2 2 [Pixel.mk 0 0 0 255, Pixel.mk 255 255 255 255,
        Pixel.mk 10 10 10 0, Pixel.mk 240 240 240 255]) =
    Image.mk 2 2 [Pixel.mk 255 0 0 255, Pixel.mk 255 255 255 255,
      Pixel.mk 255 0 0 0, Pixel.mk 240 240 240 255] := by
  refine ⟨fun c img => ⟨rfl, rfl, by simp [recolorImage], fun i => ?_⟩, by decide⟩
  simp only [recolorImage, List.getElem?_map]
  rfl

/-- Claim C8: recoloring is idempotent for light target colors: when all
three channels of the color are at least 230, a second application of
`recolorImage` with the same color is the identity on the first
application's output. -/
theorem c8_idempotent_light :
    ∀ (c : ColorSpec) (img : Image), 230 ≤ c.r → 230 ≤ c.g → 230 ≤ c.b →
      recolorImage c (recolorImage c img) = recolorImage c img := by
  intro c img hr hg hb
  have hp : ∀ p : Pixel, recolorPixel c (recolorPixel c p) = recolorPixel c p := by
    intro p
    by_cases h : p.r < 230 ∧ p.g < 230 ∧ p.b < 230
    · have h1 : recolorPixel c p = ⟨c.r, c.g, c.b, p.a⟩ := by
        simp [recolorPixel, h]
      have h2 : ¬(c.r < 230 ∧ c.g < 230 ∧ c.b < 230) := by
        rintro ⟨hcr, -, -⟩
        omega
      rw [h1]
      simp [recolorPixel, h2]
    · simp [recolorPixel, h]
  unfold recolorImage
  simp only [List.map_map]
  exact congrArg (Image.mk img.width img.height)
    (List.map_congr_left fun p _ => hp p)

/-- Witness for C8 at a concrete light color and a concrete image. -/
theorem c8_witness :
    recolorImage (ColorSpec.mk 255 255 255)
        (recolorImage (ColorSpec.mk 255 255 255)
          (Image.mk 2 1 [Pixel.mk 0 0 0 255, Pixel.mk 240 240 240 10])) =
      recolorImage (ColorSpec.mk 255 255 255)
        (Image.mk 2 1 [Pixel.mk 0 0 0 255, Pixel.mk 240 240 240 10]) :=
  c8_idempotent_light (ColorSpec.mk 255 255 255)
    (Image.mk 2 1 [Pixel.mk 0 0 0 255, Pixel.mk 240 240 240 10])
    (by decide) (by decide) (by decide)

/-- Claim C9: for every environment (covering a missing file, a corrupt
image, an invalid color string, or an unwritable destination) the
top-level `convert_to_color` terminates normally — never with an uncaught
exception — and whenever the body raises, the error is converted into the
logged message of line 40. -/
theorem c9_errors_caught :
    ∀ (env : ImgEnv) (colorHex outputPath : String),
      (∃ lines, convert_to_color env colorHex outputPath = TopOutcome.normal lines) ∧
      ∀ e, convertBody env colorHex outputPath = Except.error e →
        convert_to_color env colorHex outputPath =
          TopOutcome.normal ["An error occurred: " ++ e] := by
  intro env ch op
  constructor
  · rcases h : convertBody env ch op with e | lines
    · exact ⟨["An error occurred: " ++ e], by simp [convert_to_color, h]⟩
    · exact ⟨lines, by simp [convert_to_color, h]⟩
  · intro e he
    simp [convert_to_color, he]

/-- Witness for C9: a run whose image open fails with a missing-file error
logs the message and terminates normally. -/
theorem c9_witness :
    convert_to_color (ImgEnv.mk (Except.error "No such file or directory") (Except.ok ()))
        "#FF0000" "out.png" =
      TopOutcome.normal ["An error occurred: " ++ "No such file or directory"] :=
  (c9_errors_caught (ImgEnv.mk (Except.error "No such file or directory") (Except.ok ()))
    "#FF0000" "out.png").2 "No such file or directory" rfl

/-- Claim C10: the audio extension filter is case-insensitive — a filename
is selected exactly when its last four characters, lowercased, are
`.m4a`; in particular `SONG.M4A` is matched like `song.m4a`, and
`song.mp3` is not. -/
theorem c10_case_insensitive :
    (∀ filename : String,
      matchesM4a filename = true ↔
        ∃ pre suf : List Char, filename.data = pre ++ suf ∧
          suf.map Char.toLower = ['.', 'm', '4', 'a']) ∧
    matchesM4a "SONG.M4A" = true ∧ matchesM4a "song.m4a" = true ∧
    matchesM4a "song.mp3" = false := by
  refine ⟨fun f => ?_, by decide, by decide, by decide⟩
  unfold matchesM4a pyEndsWith pyLower
  rw [decide_eq_true_eq]
  show ".m4a".data <:+ f.data.map Char.toLower ↔ _
  constructor
  · rintro ⟨t, ht⟩
    refine ⟨f.data.take t.length, f.data.drop t.length,
      (List.take_append_drop _ _).symm, ?_⟩
    rw [List.map_drop, ← ht, List.drop_left]
  · rintro ⟨pre, suf, hsplit, hmap⟩
    exact ⟨pre.map Char.toLower, by rw [hsplit, List.map_append, hmap]⟩

/-- Helper: a resolvable transcoder never triggers the raise of lines
39-44. -/
theorem resolvable_not_raise (env : AudioEnv) (h : ffmpegResolvable env) :
    ¬(env.which = false ∧ (env.pexists = false ∨ env.isfile = false)) := by
  rintro ⟨h1, h2⟩
  rcases h with hw | ⟨hp, hf⟩
  · rw [hw] at h1
    exact absurd h1 (by simp)
  · rcases h2 with h2 | h2
    · rw [hp] at h2
      exact absurd h2 (by simp)
    · rw [hf] at h2
      exact absurd h2 (by simp)

/-- Helper: closed form of the conversion loop — the commands are the
items' commands in order, and the two counters are the number of items
whose invocation exits 0 and the number of the rest. -/
theorem runLoop_spec (env : AudioEnv) (ff : String) (inDir outDir : FsPath) :
    ∀ items : List WorkItem,
      runLoop env ff inDir outDir items =
        (items.map (buildCommand ff inDir outDir),
         (items.filter (fun it => itemSucceeds env inDir it)).length,
         (items.filter (fun it => !itemSucceeds env inDir it)).length) := by
  intro items
  induction items with
  | nil => rfl
  | cons it rest ih =>
    cases hs : itemSucceeds env inDir it <;>
      simp [runLoop, ih, hs, List.filter_cons]

/-- Helper: a filter and its complement split the length of a list. -/
theorem filterSplitLength (p : α → Bool) (l : List α) :
    (l.filter p).length + (l.filter (fun a => !p a)).length = l.length := by
  induction l with
  | nil => rfl
  | cons a l ih =>
    cases h : p a <;> simp [List.filter_cons, h] <;> omega

/-- Claim C3: when the input directory is missing (or not a directory) or
the transcoder is neither on the search path nor an existing file at the
given path, the run aborts with an uncaught `FileNotFoundError` and
performs zero subprocess invocations. -/
theorem c3_preconditions_abort :
    ∀ (env : AudioEnv) (inputDir : FsPath) (outputDirOpt : Option FsPath)
      (ffmpegPath : String) (cwd : FsPath),
      (env.isdir = false ∨
        (env.which = false ∧ (env.pexists = false ∨ env.isfile = false))) →
      (∃ msg, convert_m4a_directory_to_wav env inputDir outputDirOpt ffmpegPath cwd =
          RunOutcome.fatal msg) ∧
      invocationsOf
        (convert_m4a_directory_to_wav env inputDir outputDirOpt ffmpegPath cwd) = [] := by
  intro env inDir outOpt ff cwd h
  rcases h with h | h
  · exact ⟨⟨"Input directory not found: " ++ pathToString inDir,
      by simp [convert_m4a_directory_to_wav, h]⟩,
      by simp [convert_m4a_directory_to_wav, h, invocationsOf]⟩
  · cases hd : env.isdir
    · exact ⟨⟨"Input directory not found: " ++ pathToString inDir,
        by simp [convert_m4a_directory_to_wav, hd]⟩,
        by simp [convert_m4a_directory_to_wav, hd, invocationsOf]⟩
    · exact ⟨⟨"FFmpeg executable not found at " ++ ff,
        by simp [convert_m4a_directory_to_wav, hd, h]⟩,
        by simp [convert_m4a_directory_to_wav, hd, h, invocationsOf]⟩

/-- Witness for C3 at a concrete environment with a missing input
directory. -/
theorem c3_witness :
    (∃ msg, convert_m4a_directory_to_wav c3Env ["in"] none "ffmpeg" [""] =
        RunOutcome.fatal msg) ∧
    invocationsOf (convert_m4a_directory_to_wav c3Env ["in"] none "ffmpeg" [""]) = [] :=
  c3_preconditions_abort c3Env ["in"] none "ffmpeg" [""] (Or.inl rfl)

/-- Claim C2: for every batch run passing the preconditions in which each
of the M enumerated items' invocations completes with an exit status, with
K of them exiting nonzero, every failure is recorded per item without
aborting — all M items are attempted — and the run completes with
succeeded = M − K and failed = K, which is what the summary reports. -/
theorem c2_batch_counts :
    ∀ (env : AudioEnv) (inputDir : FsPath) (outputDirOpt : Option FsPath)
      (ffmpegPath : String) (cwd : FsPath),
      env.isdir = true → ffmpegResolvable env →
      (∀ it ∈ enumerateItems env.listing,
        invocationCompleted env inputDir it = true) →
      ∃ invs : List (List String),
        convert_m4a_directory_to_wav env inputDir outputDirOpt ffmpegPath cwd =
          RunOutcome.done invs
            ((enumerateItems env.listing).length -
              ((enumerateItems env.listing).filter
                (fun it => exitsNonzero env inputDir it)).length)
            ((enumerateItems env.listing).filter
              (fun it => exitsNonzero env inputDir it)).length
            (summaryLines
              ((enumerateItems env.listing).length -
                ((enumerateItems env.listing).filter
                  (fun it => exitsNonzero env inputDir it)).length)
              (((enumerateItems env.listing).filter
                  (fun it => exitsNonzero env inputDir it)).length)
              (pathToString (pyAbspath cwd (outputDirOpt.getD inputDir)))) ∧
        invs.length = (enumerateItems env.listing).length := by
  intro env inDir outOpt ff cwd hdir hres hcomp
  have hcond := resolvable_not_raise env hres
  have hpt : ∀ it ∈ enumerateItems env.listing,
      itemSucceeds env inDir it = !exitsNonzero env inDir it := by
    intro it hit
    have hc := hcomp it hit
    unfold invocationCompleted at hc
    unfold itemSucceeds exitsNonzero
    rcases ho : env.outcome (srcPath inDir it) with ⟨code, o, e⟩ | m
    · cases code <;> simp
    · rw [ho] at hc
      simp at hc
  have hsucc : (enumerateItems env.listing).filter
        (fun it => itemSucceeds env inDir it) =
      (enumerateItems env.listing).filter
        (fun it => !exitsNonzero env inDir it) :=
    List.filter_congr hpt
  have hfail : (enumerateItems env.listing).filter
        (fun it => !itemSucceeds env inDir it) =
      (enumerateItems env.listing).filter
        (fun it => exitsNonzero env inDir it) :=
    List.filter_congr (fun x hx => by rw [hpt x hx, Bool.not_not])
  have hsplit := filterSplitLength
    (fun it => exitsNonzero env inDir it) (enumerateItems env.listing)
  refine ⟨(enumerateItems env.listing).map
    (buildCommand ff inDir (outOpt.getD inDir)), ?_, by simp⟩
  simp only [convert_m4a_directory_to_wav, hdir, if_neg hcond]
  rw [if_neg (by simp)]
  rw [runLoop_spec, hsucc, hfail]
  have hq : ((enumerateItems env.listing).filter
        (fun it => !exitsNonzero env inDir it)).length =
      (enumerateItems env.listing).length -
        ((enumerateItems env.listing).filter
          (fun it => exitsNonzero env inDir it)).length := by
    omega
  rw [hq]

/-- Witness for C2 at a concrete environment with three matching files,
one succeeding invocation and two nonzero exits. -/
theorem c2_witness :
    ∃ invs : List (List String),
      convert_m4a_directory_to_wav c2Env ["in"] (some ["out"]) "ffmpeg" [""] =
        RunOutcome.done invs
          ((enumerateItems c2Env.listing).length -
            ((enumerateItems c2Env.listing).filter
              (fun it => exitsNonzero c2Env ["in"] it)).length)
          ((enumerateItems c2Env.listing).filter
            (fun it => exitsNonzero c2Env ["in"] it)).length
          (summaryLines
            ((enumerateItems c2Env.listing).length -
              ((enumerateItems c2Env.listing).filter
                (fun it => exitsNonzero c2Env ["in"] it)).length)
            (((enumerateItems c2Env.listing).filter
                (fun it => exitsNonzero c2Env ["in"] it)).length)
            (pathToString (pyAbspath [""] ((some ["out"]).getD ["in"])))) ∧
      invs.length = (enumerateItems c2Env.listing).length :=
  c2_batch_counts c2Env ["in"] (some ["out"]) "ffmpeg" [""] rfl (Or.inl rfl)
    (by decide)

/-- Claim C5: every processed item's transcoder invocation uses exactly
the argument list `[executable, "-i", source, "-acodec", "pcm_s16le",
"-y", destination]`, in that order, with overwrite enabled
unconditionally. -/
theorem c5_command_line :
    ∀ (env : AudioEnv) (inputDir : FsPath) (outputDirOpt : Option FsPath)
      (ffmpegPath : String) (cwd : FsPath),
      env.isdir = true → ffmpegResolvable env →
      ∃ conv fail printed,
        convert_m4a_directory_to_wav env inputDir outputDirOpt ffmpegPath cwd =
          RunOutcome.done
            ((enumerateItems env.listing).map
              (buildCommand ffmpegPath inputDir (outputDirOpt.getD inputDir)))
            conv fail printed ∧
        ∀ it : WorkItem,
          buildCommand ffmpegPath inputDir (outputDirOpt.getD inputDir) it =
            [ffmpegPath, "-i", pathToString (inputDir ++ it.rel ++ [it.name]),
             "-acodec", "pcm_s16le", "-y",
             pathToString ((outputDirOpt.getD inputDir) ++ it.rel ++
               [pySplitextBase it.name ++ ".wav"])] := by
  intro env inDir outOpt ff cwd hdir hres
  refine ⟨((enumerateItems env.listing).filter
      (fun it => itemSucceeds env inDir it)).length,
    ((enumerateItems env.listing).filter
      (fun it => !itemSucceeds env inDir it)).length,
    summaryLines
      ((enumerateItems env.listing).filter
        (fun it => itemSucceeds env inDir it)).length
      ((enumerateItems env.listing).filter
        (fun it => !itemSucceeds env inDir it)).length
      (pathToString (pyAbspath cwd (outOpt.getD inDir))),
    ?_, fun it => rfl⟩
  simp only [convert_m4a_directory_to_wav, hdir,
    if_neg (resolvable_not_raise env hres)]
  rw [if_neg (by simp)]
  rw [runLoop_spec]

/-- Witness for C5 at a concrete environment with two matching files. -/
theorem c5_witness :
    ∃ conv fail printed,
      convert_m4a_directory_to_wav c5Env ["in"] (some ["out"]) "ffmpeg" [""] =
        RunOutcome.done
          ((enumerateItems c5Env.listing).map
            (buildCommand "ffmpeg" ["in"] ((some ["out"]).getD ["in"])))
          conv fail printed ∧
      ∀ it : WorkItem,
        buildCommand "ffmpeg" ["in"] ((some ["out"]).getD ["in"]) it =
          ["ffmpeg", "-i", pathToString (["in"] ++ it.rel ++ [it.name]),
           "-acodec", "pcm_s16le", "-y",
           pathToString (((some ["out"]).getD ["in"]) ++ it.rel ++
             [pySplitextBase it.name ++ ".wav"])] :=
  c5_command_line c5Env ["in"] (some ["out"]) "ffmpeg" [""] rfl (Or.inl rfl)

/-- Claim C4: the enumeration yields exactly as many work items as there
are matching files in the walked tree, each item's destination mirrors its
relative subdirectory under the output root with the extension rewritten
to `.wav`, and on the example tree `in/a.m4a`, `in/sub/b.m4a` with output
root `out` the destinations are `out/a.wav` and `out/sub/b.wav`. -/
theorem c4_enumeration :
    (∀ (listing : List (FsPath × List String)) (inputDir outputDir : FsPath),
      (enumerateItems listing).length = matchCount listing ∧
      ∀ it ∈ enumerateItems listing, ∃ e ∈ listing,
        it.rel = e.1 ∧ it.name ∈ e.2 ∧ matchesM4a it.name = true ∧
        srcPath inputDir it = inputDir ++ e.1 ++ [it.name] ∧
        destPath outputDir it =
          outputDir ++ e.1 ++ [pySplitextBase it.name ++ ".wav"]) ∧
    (enumerateItems [([], ["a.m4a"]), (["sub"], ["b.m4a"])]).map
        (destPath ["out"]) =
      [["out", "a.wav"], ["out", "sub", "b.wav"]] := by
  refine ⟨fun listing inDir outDir => ⟨?_, ?_⟩, by decide⟩
  · rw [enumerateItems, matchCount, List.flatMap_def, List.length_flatten,
      List.map_map]
    exact congrArg List.sum
      (List.map_congr_left fun e _ => by simp [Function.comp])
  · intro it hit
    rw [enumerateItems, List.mem_flatMap] at hit
    obtain ⟨e, he, hmem⟩ := hit
    rw [List.mem_map] at hmem
    obtain ⟨f, hf, rfl⟩ := hmem
    rw [List.mem_filter] at hf
    exact ⟨e, he, rfl, hf.1, hf.2, rfl, rfl⟩

/-- Witness for C4's per-item property at a concrete listing and item. -/
theorem c4_witness :
    ∃ e ∈ ([([], ["a.m4a"]), (["sub"], ["b.m4a"])] :
        List (FsPath × List String)),
      (WorkItem.mk [] "a.m4a").rel = e.1 ∧
      (WorkItem.mk [] "a.m4a").name ∈ e.2 ∧
      matchesM4a (WorkItem.mk [] "a.m4a").name = true ∧
      srcPath ["in"] (WorkItem.mk [] "a.m4a") =
        ["in"] ++ e.1 ++ [(WorkItem.mk [] "a.m4a").name] ∧
      destPath ["out"] (WorkItem.mk [] "a.m4a") =
        ["out"] ++ e.1 ++
          [pySplitextBase (WorkItem.mk [] "a.m4a").name ++ ".wav"] :=
  (c4_enumeration.1 [([], ["a.m4a"]), (["sub"], ["b.m4a"])] ["in"] ["out"]).2
    (WorkItem.mk [] "a.m4a") (by decide)

/-- Helper: the summary's converted line contains the converted count. -/
theorem summary_prints_converted (conv fail : Nat) (outAbs : String) :
    printsNum (summaryLines conv fail outAbs) conv := by
  refine ⟨"Successfully converted: " ++ toString conv ++ " file(s)",
    by simp [summaryLines], ?_⟩
  exact ⟨"Successfully converted: ".data, " file(s)".data, by simp⟩

/-- Helper: the summary's failed line contains the failed count. -/
theorem summary_prints_failed (conv fail : Nat) (outAbs : String) :
    printsNum (summaryLines conv fail outAbs) fail := by
  refine ⟨"Failed conversions:     " ++ toString fail ++ " file(s)",
    by simp [summaryLines], ?_⟩
  exact ⟨"Failed conversions:     ".data, " file(s)".data, by simp⟩

/-- Helper: the summary's last line contains the output location. -/
theorem summary_prints_outdir (conv fail : Nat) (outAbs : String) :
    ∃ l ∈ summaryLines conv fail outAbs, outAbs.data <:+: l.data := by
  refine ⟨"Output directory:       " ++ outAbs, by simp [summaryLines], ?_⟩
  exact ⟨"Output directory:       ".data, [], by simp⟩

/-- Counterexample refuting claim C7 as stated: on a run with 1 success
and 2 failures the summary is printed with succeeded = 1 and failed = 2,
but no printed summary line contains the attempted count 3. -/
theorem c7_counterexample :
    (∃ invs, convert_m4a_directory_to_wav c7Env ["in"] (some ["out"])
        "ffmpeg" [""] =
      RunOutcome.done invs 1 2 (summaryLines 1 2 "/out")) ∧
    (enumerateItems c7Env.listing).length = 3 ∧
    ¬ printsNum (summaryLines 1 2 "/out") 3 := by
  refine ⟨⟨[["ffmpeg", "-i", "in/a.m4a", "-acodec", "pcm_s16le", "-y",
      "out/a.wav"],
     ["ffmpeg", "-i", "in/b.m4a", "-acodec", "pcm_s16le", "-y",
      "out/b.wav"],
     ["ffmpeg", "-i", "in/c.m4a", "-acodec", "pcm_s16le", "-y",
      "out/c.wav"]], by decide⟩, by decide, by unfold printsNum; decide⟩

/-- Claim C7 as amended: at the end of every run that passes the
preconditions, the reporter prints the succeeded count, the failed count,
and the resolved absolute output location — but no separate attempted
count. -/
theorem c7_summary_reports :
    ∀ (env : AudioEnv) (inputDir : FsPath) (outputDirOpt : Option FsPath)
      (ffmpegPath : String) (cwd : FsPath),
      env.isdir = true → ffmpegResolvable env →
      ∃ invs conv fail,
        convert_m4a_directory_to_wav env inputDir outputDirOpt ffmpegPath cwd =
          RunOutcome.done invs conv fail
            (summaryLines conv fail
              (pathToString (pyAbspath cwd (outputDirOpt.getD inputDir)))) ∧
        printsNum (summaryLines conv fail
          (pathToString (pyAbspath cwd (outputDirOpt.getD inputDir)))) conv ∧
        printsNum (summaryLines conv fail
          (pathToString (pyAbspath cwd (outputDirOpt.getD inputDir)))) fail ∧
        ∃ l ∈ summaryLines conv fail
          (pathToString (pyAbspath cwd (outputDirOpt.getD inputDir))),
          (pathToString (pyAbspath cwd (outputDirOpt.getD inputDir))).data <:+:
            l.data := by
  intro env inDir outOpt ff cwd hdir hres
  refine ⟨(enumerateItems env.listing).map
      (buildCommand ff inDir (outOpt.getD inDir)),
    ((enumerateItems env.listing).filter
      (fun it => itemSucceeds env inDir it)).length,
    ((enumerateItems env.listing).filter
      (fun it => !itemSucceeds env inDir it)).length,
    ?_, summary_prints_converted _ _ _, summary_prints_failed _ _ _,
    summary_prints_outdir _ _ _⟩
  simp only [convert_m4a_directory_to_wav, hdir,
    if_neg (resolvable_not_raise env hres)]
  rw [if_neg (by simp)]
  rw [runLoop_spec]

/-- Witness for the amended C7 at a concrete environment. -/
theorem c7_witness :
    ∃ invs conv fail,
      convert_m4a_directory_to_wav c7bEnv ["in"] (some ["out"]) "ffmpeg" [""] =
        RunOutcome.done invs conv fail
          (summaryLines conv fail
            (pathToString (pyAbspath [""] ((some ["out"]).getD ["in"])))) ∧
      printsNum (summaryLines conv fail
        (pathToString (pyAbspath [""] ((some ["out"]).getD ["in"])))) conv ∧
      printsNum (summaryLines conv fail
        (pathToString (pyAbspath [""] ((some ["out"]).getD ["in"])))) fail ∧
      ∃ l ∈ summaryLines conv fail
        (pathToString (pyAbspath [""] ((some ["out"]).getD ["in"]))),
        (pathToString (pyAbspath [""] ((some ["out"]).getD ["in"]))).data <:+:
          l.data :=
  c7_summary_reports c7bEnv ["in"] (some ["out"]) "ffmpeg" [""] rfl (Or.inl rfl)

/-- Helper: a hex digit's value is at most 15. -/
theorem hexVal_le_15 {c : Char} {v : Nat} (h : hexVal c = some v) : v ≤ 15 := by
  unfold hexVal at h
  split at h
  next hc => simp only [Option.some.injEq] at h; omega
  next =>
    split at h
    next hc => simp only [Option.some.injEq] at h; omega
    next =>
      split at h
      next hc => simp only [Option.some.injEq] at h; omega
      next => simp at h

/-- Helper: the code point ranges of hex digit characters. -/
theorem hexVal_range {c : Char} {v : Nat} (h : hexVal c = some v) :
    (48 ≤ c.toNat ∧ c.toNat ≤ 57) ∨ (97 ≤ c.toNat ∧ c.toNat ≤ 102) ∨
      (65 ≤ c.toNat ∧ c.toNat ≤ 70) := by
  unfold hexVal at h
  split at h
  next hc => exact Or.inl hc
  next =>
    split at h
    next hc => exact Or.inr (Or.inl hc)
    next =>
      split at h
      next hc => exact Or.inr (Or.inr hc)
      next => simp at h

/-- Helper: a hex digit differs from any character outside the hex digit
code point ranges. -/
theorem hexDigit_ne {c : Char} {v : Nat} (h : hexVal c = some v) (d : Char)
    (hd : d.toNat < 48 ∨ 102 < d.toNat ∨ (57 < d.toNat ∧ d.toNat < 65) ∨
      (70 < d.toNat ∧ d.toNat < 97)) : c ≠ d := by
  intro he
  subst he
  rcases hexVal_range h with h1 | h1 | h1 <;> omega

/-- Helper: hex digits are not whitespace. -/
theorem hexDigit_not_space {c : Char} {v : Nat} (h : hexVal c = some v) :
    pyIsSpace c = false := by
  simp only [pyIsSpace, Bool.or_eq_false_iff, beq_eq_false_iff_ne]
  and_intros <;> exact hexDigit_ne h _ (by decide)

/-- Helper: `int(s, 16)` on a two-hex-digit string yields the expected
byte value. -/
theorem pyIntBase16_two_digits {c0 c1 : Char} {v0 v1 : Nat}
    (h0 : hexVal c0 = some v0) (h1 : hexVal c1 = some v1) :
    pyIntBase16 [c0, c1] = some ((16 * v0 + v1 : Nat) : Int) := by
  have hs0 := hexDigit_not_space h0
  have hs1 := hexDigit_not_space h1
  have hstrip : stripEnds [c0, c1] = [c0, c1] := by
    simp [stripEnds, List.dropWhile_cons, hs0, hs1]
  have hm : c0 ≠ '-' := hexDigit_ne h0 '-' (by decide)
  have hp : c0 ≠ '+' := hexDigit_ne h0 '+' (by decide)
  have hx : c1 ≠ 'x' := hexDigit_ne h1 'x' (by decide)
  have hX : c1 ≠ 'X' := hexDigit_ne h1 'X' (by decide)
  have hu : c1 ≠ '_' := hexDigit_ne h1 '_' (by decide)
  unfold pyIntBase16
  rw [hstrip]
  simp [headIs, hm, hp, hx, hX, hexCore, hexRest, h0, h1, hu]

/-- Helper: on a six-hex-digit character list the three two-character
slices all parse, to values in `[0, 255]`. -/
theorem slices_parse {cs : List Char} (hlen : cs.length = 6)
    (hdig : ∀ c ∈ cs, (hexVal c).isSome = true) :
    ∃ r g b : Nat, r ≤ 255 ∧ g ≤ 255 ∧ b ≤ 255 ∧
      pyIntBase16 (pySlice cs 0 2) = some (r : Int) ∧
      pyIntBase16 (pySlice cs 2 4) = some (g : Int) ∧
      pyIntBase16 (pySlice cs 4 6) = some (b : Int) := by
  rcases cs with _ | ⟨c0, _ | ⟨c1, _ | ⟨c2, _ | ⟨c3, _ | ⟨c4, _ | ⟨c5, rest⟩⟩⟩⟩⟩⟩ <;>
    simp at hlen
  subst hlen
  obtain ⟨v0, hv0⟩ := Option.isSome_iff_exists.mp (hdig c0 (by simp))
  obtain ⟨v1, hv1⟩ := Option.isSome_iff_exists.mp (hdig c1 (by simp))
  obtain ⟨v2, hv2⟩ := Option.isSome_iff_exists.mp (hdig c2 (by simp))
  obtain ⟨v3, hv3⟩ := Option.isSome_iff_exists.mp (hdig c3 (by simp))
  obtain ⟨v4, hv4⟩ := Option.isSome_iff_exists.mp (hdig c4 (by simp))
  obtain ⟨v5, hv5⟩ := Option.isSome_iff_exists.mp (hdig c5 (by simp))
  refine ⟨16 * v0 + v1, 16 * v2 + v3, 16 * v4 + v5, ?_, ?_, ?_, ?_, ?_, ?_⟩
  · have := hexVal_le_15 hv0
    have := hexVal_le_15 hv1
    omega
  · have := hexVal_le_15 hv2
    have := hexVal_le_15 hv3
    omega
  · have := hexVal_le_15 hv4
    have := hexVal_le_15 hv5
    omega
  · exact pyIntBase16_two_digits hv0 hv1
  · exact pyIntBase16_two_digits hv2 hv3
  · exact pyIntBase16_two_digits hv4 hv5

/-- Counterexample refuting claim C6 as stated: the five-hex-digit string
`#FFFFF` is not rejected — it is accepted and parsed into the color
`(255, 255, 15)`. -/
theorem c6_counterexample :
    parseColorHex "#FFFFF" = some (ColorSpec.mk 255 255 15) ∧
    ("#FFFFF".data.dropWhile (fun c => c == '#')).length ≠ 6 :=
  ⟨by decide, by decide⟩

/-- Claim C6 as amended: every input string whose content after removing
the leading `#` characters consists of exactly six hexadecimal digits is
accepted by the color parsing, with every resulting channel in
`[0, 255]`; inputs of other shapes are not necessarily rejected. -/
theorem c6_six_hex_accepted :
    ∀ s : String,
      (s.data.dropWhile (fun c => c == '#')).length = 6 →
      (∀ c ∈ s.data.dropWhile (fun c => c == '#'), (hexVal c).isSome = true) →
      ∃ col : ColorSpec, parseColorHex s = some col ∧
        0 ≤ col.r ∧ col.r ≤ 255 ∧ 0 ≤ col.g ∧ col.g ≤ 255 ∧
        0 ≤ col.b ∧ col.b ≤ 255 := by
  intro s hlen hdig
  obtain ⟨r, g, b, hr, hg, hb, e1, e2, e3⟩ := slices_parse hlen hdig
  refine ⟨ColorSpec.mk (r : Int) (g : Int) (b : Int), ?_, ?_, ?_, ?_, ?_, ?_, ?_⟩
  · unfold parseColorHex
    simp only [e1, e2, e3]
  · exact Int.ofNat_nonneg r
  · show ((r : Nat) : Int) ≤ 255
    exact_mod_cast hr
  · exact Int.ofNat_nonneg g
  · show ((g : Nat) : Int) ≤ 255
    exact_mod_cast hg
  · exact Int.ofNat_nonneg b
  · show ((b : Nat) : Int) ≤ 255
    exact_mod_cast hb

/-- Witness for the amended C6 at the spec's example color string. -/
theorem c6_witness :
    ∃ col : ColorSpec, parseColorHex "#FF5733" = some col ∧
      0 ≤ col.r ∧ col.r ≤ 255 ∧ 0 ≤ col.g ∧ col.g ≤ 255 ∧
      0 ≤ col.b ∧ col.b ≤ 255 :=
  c6_six_hex_accepted "#FF5733" (by decide) (by decide)
